import Mathlib

/-!
Verification of the MetaChem `WellMixedTank` template (WellMixedTank.py).

The development shallowly embeds the source file's classes as Lean
definitions: pure `process` phases become functions, the assembled
control-flow graph becomes a deterministic step function on an explicit
simulation state, and Python dictionaries become ordered association
lists.  Components of the repository that are not part of the single
source file (the Core containers, the Core samplers and the graph
driver) are modelled from the specification where a claim depends on
them; each such definition carries a doc comment saying so.
-/

/-- Modelled from the spec: `WatsonSpike` (RBNworld module, not in src).
Only the two attributes read by `ReturnObserver.process` are kept:
`spikeNumber` and `intensity`.  In the source each entry of
`part.open_spikes` / `part.bonds` is a tuple whose component `[0]` is the
spike; a list entry here stands for that component. -/
structure WatsonSpike where
  spikeNumber : Int
  intensity : Int
deriving DecidableEq

/-- Modelled from the spec: the bond/spike capability of `RBNParticle`
(RBNworld module, not in src), restricted to the attributes the source
file reads: `id`, `atoms` (only its length is used), `open_spikes` and
`bonds`. -/
structure RBNParticleData where
  id : Int
  atoms : Nat
  open_spikes : List WatsonSpike
  bonds : List WatsonSpike
deriving DecidableEq

/-- A value held by a container: tank contents are uppercase letters
(`scc`), integers (`int`), plain `Particle`s without the bond/spike
capability, or `RBNParticle`s with it. -/
inductive Value where
  | sym (c : Char)
  | intVal (n : Int)
  | plain (id : Int)
  | rbn (p : RBNParticleData)
deriving DecidableEq

/-- `isinstance(x, Particle)`: plain particles and RBN particles. -/
def Value.isParticle : Value → Bool
  | .plain _ => true
  | .rbn _ => true
  | _ => false

/-- `isinstance(x, RBNParticle)`. -/
def Value.isRBN : Value → Bool
  | .rbn _ => true
  | _ => false

/-- The `id` attribute of a particle (junk for non-particles, which the
source never reaches thanks to its `isinstance` guards). -/
def Value.pid : Value → Int
  | .plain i => i
  | .rbn p => p.id
  | _ => 0

/-- The RBN payload of a value (junk for non-RBN values, which the
source never reaches: every access is under the `all isinstance
RBNParticle` guard). -/
def Value.rbnData : Value → RBNParticleData
  | .rbn p => p
  | _ => ⟨0, 0, [], []⟩

/-- A Python value as stored in the staging dictionary / ledger row. -/
inductive PyVal where
  | s (v : String)
  | i (v : Int)
  | obj (v : Value)
  | tup (a b : PyVal)
  | list (l : List PyVal)

/-- A Python dict with insertion order: an ordered association list. -/
abbrev Dict := List (String × PyVal)

/-- Python `d[k] = v`: replace in place when the key exists, else append. -/
def Dict.set : Dict → String → PyVal → Dict
  | [], k, v => [(k, v)]
  | (k', v') :: rest, k, v =>
      if k' = k then (k, v) :: rest else (k', v') :: Dict.set rest k v

/-- Python `d[k]` as a total lookup. -/
def Dict.get : Dict → String → Option PyVal
  | [], _ => none
  | (k', v') :: rest, k => if k' = k then some v' else Dict.get rest k

/-- `SampleObserver.process` (WellMixedTank.py): snapshot of up to two
sampled items into the staging dictionary, with `'n/a'` for items that
are not `Particle`s and `'None'` for a missing second item.  An empty
sample makes the source raise an `IndexError` at `self.sample[0]`,
embedded as `none`. -/
def SampleObserver.process (sample : List Value) : Option Dict :=
  match sample with
  | [] => none
  | s0 :: rest =>
    let id1 := if s0.isParticle then PyVal.i s0.pid else PyVal.s "n/a"
    match rest with
    | [] => some [("id1", id1), ("id2", .s "None"), ("obj1", .obj s0), ("obj2", .s "None")]
    | s1 :: _ =>
      let id2 := if s1.isParticle then PyVal.i s1.pid else PyVal.s "n/a"
      some [("id1", id1), ("id2", id2), ("obj1", .obj s0), ("obj2", .obj s1)]

/-- The per-particle description string built by `ReturnObserver.process`. -/
def partInfo (p : RBNParticleData) : String :=
  "RBNParticle(ID=" ++ toString p.id ++ ", Atoms=" ++ toString p.atoms ++
    ", Open=" ++ toString p.open_spikes.length ++ ", Bonded=" ++ toString p.bonds.length ++ ")"

/-- `[(spike[0].spikeNumber, spike[0].intensity) for spike in part.open_spikes]`. -/
def openPairs (p : RBNParticleData) : List (Int × Int) :=
  p.open_spikes.map (fun sp => (sp.spikeNumber, sp.intensity))

/-- `[(spike[0].spikeNumber, spike[0].intensity) for spike in part.bonds]`. -/
def bondPairs (p : RBNParticleData) : List (Int × Int) :=
  p.bonds.map (fun sp => (sp.spikeNumber, sp.intensity))

/-- `sum(spike[1] for spike in open_spikes + bonded_spikes)`. -/
def totalIntensity (p : RBNParticleData) : Int :=
  ((openPairs p ++ bondPairs p).map Prod.snd).sum

/-- A `(spikeNumber, intensity)` pair as a Python tuple value. -/
def pairVal (q : Int × Int) : PyVal := .tup (.i q.1) (.i q.2)

/-- `ReturnObserver.process` (WellMixedTank.py): extends the staged
dictionary with the reaction outcome.  When every product is an
`RBNParticle` the derived fields are computed per product; otherwise all
four derived fields are lists of the sentinel `"N/A"`, one per sampled
slot.  `Generation` is always set to the counter value read in `read`. -/
def ReturnObserver.process (sample : List Value) (dict : Dict) (current_generation : Int) : Dict :=
  if sample.all Value.isRBN then
    let parts := sample.map Value.rbnData
    let d1 := Dict.set dict "Prods" (.list (parts.map (fun p => .s (partInfo p))))
    let d2 := Dict.set d1 "Open_Spikes" (.list (parts.map (fun p => .list ((openPairs p).map pairVal))))
    let d3 := Dict.set d2 "Bonded_Spikes" (.list (parts.map (fun p => .list ((bondPairs p).map pairVal))))
    let d4 := Dict.set d3 "Intensity" (.list (parts.map (fun p => .i (totalIntensity p))))
    Dict.set d4 "Generation" (.i current_generation)
  else
    let d1 := Dict.set dict "Prods" (.list (List.replicate sample.length (.s "N/A")))
    let d2 := Dict.set d1 "Open_Spikes" (.list (List.replicate sample.length (.s "N/A")))
    let d3 := Dict.set d2 "Bonded_Spikes" (.list (List.replicate sample.length (.s "N/A")))
    let d4 := Dict.set d3 "Intensity" (.list (List.replicate sample.length (.s "N/A")))
    Dict.set d4 "Generation" (.i current_generation)

/-- `TimingsDecision` (WellMixedTank.py): the configured thresholds and
the three values loaded by `read` each visit. -/
structure TimingsDecision where
  time_thresh : Int
  gen_thresh : Int
  sample_size : Nat
  time : Int
  gen : Int
  tank_size : Nat
deriving DecidableEq

/-- `TimingsDecision.process` (WellMixedTank.py): the three-way branch. -/
def TimingsDecision.process (d : TimingsDecision) : Nat :=
  if d.gen < d.gen_thresh ∧ d.tank_size ≥ d.sample_size then 0
  else if d.time < d.time_thresh then 1
  else 2

/-- The `load_type` argument of `LoadSampler`: either a string mode or an
initialised `ParticleFactory` (modelled by its `createParticles` method). -/
inductive LoadType where
  | strMode (s : String)
  | factory (createParticles : Nat → List Value)

/-- Errors the loader can raise.  `typeError` models the Python
`TypeError` raised by `open(None, "r")` when `load_file` is missing in
csv mode.  `configurationError` is the spec's taxonomy name; the source
never raises it, the constructor exists only to state that fact. -/
inductive LoadError where
  | typeError
  | configurationError
deriving DecidableEq

/-- The sources of randomness and the RBN particle factory used by
`LoadSampler.pull`, abstracted as oracles (index ↦ drawn value). -/
structure GenOracles where
  rndUpper : Nat → Char
  rndInt : Nat → Int
  rbnFactory : Nat → List Value

/-- `LoadSampler.read` (WellMixedTank.py): only the `"csv"` mode acts,
reading one flat row from the file (`csvRow` models the file contents);
a missing `load_file` makes Python's `open` raise a `TypeError`.  The
result is the value assigned to `self.sample`, `none` when `read` leaves
it untouched. -/
def LoadSampler.read (load_type : LoadType) (load_file : Option String)
    (csvRow : String → List Value) : Except LoadError (Option (List Value)) :=
  match load_type with
  | .strMode s =>
      if s = "csv" then
        match load_file with
        | none => .error .typeError
        | some f => .ok (some (csvRow f))
      else .ok none
  | .factory _ => .ok none

/-- `LoadSampler.pull` (WellMixedTank.py): the generator modes.  A
string mode that matches none of `"scc"`, `"int"`, `"RBN"` (and is not a
factory) takes no branch at all: `self.sample` is left unset (`none`)
and no error is raised. -/
def LoadSampler.pull (g : GenOracles) (load_type : LoadType) (tank_size : Nat) :
    Option (List Value) :=
  match load_type with
  | .strMode s =>
      if s = "scc" then some ((List.range tank_size).map (fun i => Value.sym (g.rndUpper i)))
      else if s = "int" then some ((List.range tank_size).map (fun i => Value.intVal (g.rndInt i)))
      else if s = "RBN" then some (g.rbnFactory tank_size)
      else none
  | .factory f => some (f tank_size)

/-- Modelled from the spec: `CoreContainer.DataFrameEnvironment` (the
reaction ledger) is not in src.  Per §3 it is an append-only tabular
store with a fixed column list; `add` appends one row. -/
structure DataFrameEnvironment where
  columns : List String
  rows : List Dict

/-- Appending one row to the ledger (`ReturnObserver.push` calls this). -/
def DataFrameEnvironment.add (df : DataFrameEnvironment) (row : Dict) : DataFrameEnvironment :=
  { df with rows := df.rows ++ [row] }

/-- The operations the program performs on the reaction ledger:
`ReturnObserver.push` appends a row; `print_reactions` and
`results_to_csv` read it. -/
inductive LedgerOp where
  | addRow (row : Dict)
  | readAll

/-- Effect of a ledger operation on the ledger. -/
def DataFrameEnvironment.apply (df : DataFrameEnvironment) : LedgerOp → DataFrameEnvironment
  | .addRow row => df.add row
  | .readAll => df

/-- Modelled from the spec: serialisation of the ledger
(`pandas.DataFrame.to_csv`, external to the repository).  The header is
the column list; each recorded row yields one data row holding the
cells in column order. -/
def DataFrameEnvironment.to_csv (df : DataFrameEnvironment) :
    List String × List (List (Option PyVal)) :=
  (df.columns, df.rows.map (fun row => df.columns.map (fun c => Dict.get row c)))

/-- The shape of the caller-supplied bond subgraph, as tested by
`WellMixedTank.__init__` (counts of control-in, control-out and link
attachment points). -/
structure BondGraph where
  count_control_in : Nat
  count_control_out : Nat
  count_links : Nat
deriving DecidableEq

/-- The assembly-time error of `WellMixedTank.__init__` (a `ValueError`
in the source; the spec's taxonomy calls it `GraphShapeError`). -/
inductive MCError where
  | GraphShapeError
deriving DecidableEq

/-- The construction parameters of the assembled experiment, in the
order of `WellMixedTank.__init__`. -/
structure Config where
  sample_size : Nat
  reactions : Nat
  generations : Nat
  tank_size : Nat
deriving DecidableEq

/-- The data the assembled `WellMixedTank` object exposes that the
claims need: the reaction ledger and the configuration. -/
structure WellMixedTankState where
  reactions : DataFrameEnvironment
  cfg : Config

/-- `WellMixedTank.__init__` (WellMixedTank.py): the bond-graph shape
check runs first, before any container or node is built; on success the
containers are instantiated, in particular the reaction ledger with its
fixed column list (source line 62). -/
def WellMixedTank.init (bondgraph : BondGraph) (sample_size reactions generations tank_size : Nat) :
    Except MCError WellMixedTankState :=
  if ¬(bondgraph.count_control_in = 1 ∧ bondgraph.count_control_out = 1 ∧
      bondgraph.count_links = 1) then
    .error .GraphShapeError
  else
    .ok ⟨⟨["id1", "id2", "obj1", "obj2", "Prods", "Open_Spikes", "Bonded_Spikes",
           "Intensity", "Generation"], []⟩,
         ⟨sample_size, reactions, generations, tank_size⟩⟩

/-- The ledger schema as the spec states it (§3). -/
def ledgerColumns : List String :=
  ["id1", "id2", "obj1", "obj2", "Prods", "Open_Spikes", "Bonded_Spikes",
   "Intensity", "Generation"]

/-- The candidate output path for a given suffix, as built by
`WellMixedTank.results_to_csv`: `Outputs/output.csv` for suffix 0, else
`os.path.splitext` recomposition `Outputs/output_<suffix>.csv`. -/
def outputPath (suffix : Nat) : String :=
  if suffix = 0 then "Outputs/output.csv"
  else "Outputs/output_" ++ toString suffix ++ ".csv"

/-- The suffix-search loop of `results_to_csv`: starting from a suffix,
return the first suffix whose candidate path does not exist.  `ex`
models `os.path.exists`; `fuel` bounds the unbounded Python loop. -/
def findFree (ex : String → Bool) : Nat → Nat → Option Nat
  | 0, _ => none
  | fuel + 1, suffix =>
      if ex (outputPath suffix) then findFree ex fuel (suffix + 1) else some suffix

/-- `WellMixedTank.results_to_csv` path selection: the path actually
written to.  The function takes no file-name argument in the source —
the base path is hardcoded — so the embedding's only inputs are the
file-system oracle and the loop fuel. -/
def results_to_csv (ex : String → Bool) (fuel : Nat) : Option String :=
  (findFree ex fuel 0).map outputPath

/-- The vertices of the assembled control-flow graph (source lines
73-97), with the opaque bond subgraph compressed to the single vertex
`bond` (it exposes exactly one control-in and one control-out).  `err`
is a sink modelling an `InsufficientPopulationError` raised by the
sampler; `tterm` is the terminal vertex. -/
inductive NodeId where
  | sload | otime | oreset | ssample | osample | bond | oreturn | sreturn
  | ogen | dgen | sgeneration | olog | ssimulation | tterm | err
deriving DecidableEq

/-- The run-time state the claims observe: the current vertex, the two
counters (`VTime`, `VGen`) and the sizes of the three particle
containers (`TTank`, `TNew`, `SComposite`). -/
structure SimState where
  node : NodeId
  vTime : Nat
  vGen : Nat
  tank : Nat
  tnew : Nat
  scomp : Nat
deriving DecidableEq

/-- The decision value `dgen` computes at a state: `TimingsDecision`
constructed as in source line 84 with `time_thresh := generations`,
`gen_thresh := reactions`, reading `VGen`, `VTime` and the tank size. -/
def decideOf (cfg : Config) (s : SimState) : Nat :=
  (TimingsDecision.mk (Int.ofNat cfg.generations) (Int.ofNat cfg.reactions)
    cfg.sample_size (Int.ofNat s.vTime) (Int.ofNat s.vGen) s.tank).process

/-- Modelled from the spec where the executed node is not in src
(`Simulate` driver, `CoreControl` samplers and clock observers): one
driver step of the assembled graph.  The edge topology is the source's
edge list (lines 95-97, 106-107); node effects follow §4.2-§4.7 of the
spec: `ClockObserver` increments its counter, `ClockResetObserver`
zeroes it, `SimpleSampler` moves exactly `sample_size` particles (an
`InsufficientPopulationError`, modelled by `err`, if too few),
`BruteSampler` moves everything, and the opaque bond subgraph transforms
the sample container's contents (`f` gives the resulting size). -/
def step (cfg : Config) (f : Nat → Nat) (s : SimState) : SimState :=
  match s.node with
  | .sload => { s with node := .otime, tank := cfg.tank_size }
  | .otime => { s with node := .oreset, vTime := s.vTime + 1 }
  | .oreset => { s with node := .ssample, vGen := 0 }
  | .ssample =>
      if cfg.sample_size ≤ s.tank then
        { s with node := .osample, tank := s.tank - cfg.sample_size,
                 scomp := s.scomp + cfg.sample_size }
      else { s with node := .err }
  | .osample => { s with node := .bond }
  | .bond => { s with node := .oreturn, scomp := f s.scomp }
  | .oreturn => { s with node := .sreturn }
  | .sreturn => { s with node := .ogen, tnew := s.tnew + s.scomp, scomp := 0 }
  | .ogen => { s with node := .dgen, vGen := s.vGen + 1 }
  | .dgen =>
      if decideOf cfg s = 0 then { s with node := .ssample }
      else if decideOf cfg s = 1 then { s with node := .sgeneration }
      else { s with node := .ssimulation }
  | .sgeneration => { s with node := .olog, tank := s.tank + s.tnew, tnew := 0 }
  | .olog => { s with node := .otime }
  | .ssimulation => { s with node := .tterm, tank := s.tank + s.tnew, tnew := 0 }
  | .tterm => s
  | .err => s

/-- The state in which the driver starts: at the loader, counters zero,
all containers empty. -/
def initState : SimState := ⟨.sload, 0, 0, 0, 0, 0⟩

/-- The state after `n` driver steps.  `oracle` resolves the opaque bond
subgraph: at step index `n` it maps the sample container's size to its
size after the reaction. -/
def exec (cfg : Config) (oracle : Nat → Nat → Nat) : Nat → SimState
  | 0 => initState
  | n + 1 => step cfg (oracle n) (exec cfg oracle n)

/-- A concrete configuration: sample size 2, 100 reactions per
generation, 10000 generations, 5 particles. -/
def cfg₀ : Config := ⟨2, 100, 10000, 5⟩

/-- A concrete bond oracle that conserves particles: the reaction
returns exactly as many products as it consumed. -/
def oracle₀ : Nat → Nat → Nat := fun _ s => s

/-- A concrete well-shaped bond graph. -/
def bg₀ : BondGraph := ⟨1, 1, 1⟩

/-- A concrete RBN particle: spikes (0,2),(1,5) open and (2,4) bonded. -/
def p₀ : RBNParticleData := ⟨1, 3, [⟨0, 2⟩, ⟨1, 5⟩], [⟨2, 4⟩]⟩

/-- A concrete RBN particle: spike (0,3) open and (1,6) bonded. -/
def p₁ : RBNParticleData := ⟨2, 4, [⟨0, 3⟩], [⟨1, 6⟩]⟩

/-- A concrete two-product sample in which every product is an RBN
particle. -/
def sample₀ : List Value := [.rbn p₀, .rbn p₁]

/-- A concrete csv-row oracle (the file contents are irrelevant to the
claims about error behaviour). -/
def csvRow₀ : String → List Value := fun _ => []

/-- Concrete generation oracles. -/
def gen₀ : GenOracles := ⟨fun _ => 'A', fun _ => 0, fun _ => []⟩

/-- The concrete `TimingsDecision` state used by the C1 witness:
thresholds (10, 3), sample size 2, time 0, per-generation counter 2,
tank of 5. -/
def d₀ : TimingsDecision := ⟨10, 3, 2, 0, 2, 5⟩

/-- The state `WellMixedTank.init bg₀ 2 1 1 5` produces. -/
def t₀ : WellMixedTankState :=
  ⟨⟨["id1", "id2", "obj1", "obj2", "Prods", "Open_Spikes", "Bonded_Spikes",
     "Intensity", "Generation"], []⟩, ⟨2, 1, 1, 5⟩⟩

theorem Dict.get_set_same (d : Dict) (k : String) (v : PyVal) :
    Dict.get (Dict.set d k v) k = some v := by
  induction d with
  | nil => simp [Dict.set, Dict.get]
  | cons hd tl ih =>
    obtain ⟨k', v'⟩ := hd
    by_cases h : k' = k <;> simp [Dict.set, Dict.get, h, ih]

theorem Dict.get_set_ne (d : Dict) (k k' : String) (v : PyVal) (h : k' ≠ k) :
    Dict.get (Dict.set d k' v) k = Dict.get d k := by
  induction d with
  | nil => simp [Dict.set, Dict.get, h]
  | cons hd tl ih =>
    obtain ⟨k0, v0⟩ := hd
    by_cases h0 : k0 = k' <;> simp [Dict.set, Dict.get, h0, h, ih]

/-- C1: `TimingsDecision.process` returns 0 iff the per-generation
counter is strictly below the reactions-per-generation threshold and the
pool holds at least `sample_size` particles; otherwise 1 iff the
elapsed-time counter is strictly below the generations threshold;
otherwise 2 — a strict first-match priority.  In particular, with a
reactions threshold of 3 and a big-enough pool, a counter of 2 gives 0;
a counter of 3 with time below the generations threshold gives 1; a
counter of 3 with time equal to the threshold gives 2. -/
theorem C1_timings_decision (d : TimingsDecision) :
    (d.process = 0 ↔ (d.gen < d.gen_thresh ∧ d.tank_size ≥ d.sample_size)) ∧
    (d.process = 1 ↔
      (¬(d.gen < d.gen_thresh ∧ d.tank_size ≥ d.sample_size) ∧ d.time < d.time_thresh)) ∧
    (d.process = 2 ↔
      (¬(d.gen < d.gen_thresh ∧ d.tank_size ≥ d.sample_size) ∧ ¬(d.time < d.time_thresh))) ∧
    (d.gen_thresh = 3 → d.gen = 2 → d.tank_size ≥ d.sample_size → d.process = 0) ∧
    (d.gen_thresh = 3 → d.gen = 3 → d.time < d.time_thresh → d.process = 1) ∧
    (d.gen_thresh = 3 → d.gen = 3 → d.time = d.time_thresh → d.process = 2) := by
  unfold TimingsDecision.process
  refine ⟨?_, ?_, ?_, ?_, ?_, ?_⟩ <;> split_ifs with h1 h2 <;> simp_all <;> omega

/-- Witness for C1 at a concrete decision state: reactions threshold 3,
per-generation counter 2, pool 5 ≥ sample size 2 gives branch 0. -/
theorem C1_witness : TimingsDecision.process d₀ = 0 :=
  (C1_timings_decision d₀).2.2.2.1 rfl rfl (by decide)

/-- C4: `SampleObserver.process` records, per sampled item, its id when
the item is a `Particle` and the sentinel `'n/a'` otherwise, together
with the raw item; a single-item sample records `id2 = "None"`,
`obj2 = "None"` and returns normally (only the empty sample errors). -/
theorem C4_sample_observer (x y : Value) :
    SampleObserver.process [x] =
      some [("id1", if x.isParticle then PyVal.i x.pid else PyVal.s "n/a"),
            ("id2", PyVal.s "None"), ("obj1", PyVal.obj x), ("obj2", PyVal.s "None")] ∧
    SampleObserver.process [x, y] =
      some [("id1", if x.isParticle then PyVal.i x.pid else PyVal.s "n/a"),
            ("id2", if y.isParticle then PyVal.i y.pid else PyVal.s "n/a"),
            ("obj1", PyVal.obj x), ("obj2", PyVal.obj y)] ∧
    SampleObserver.process ([] : List Value) = none :=
  ⟨rfl, rfl, rfl⟩

/-- C2: `ReturnObserver.process` branches on the capability check: when
every product is an RBN particle each product contributes an
identity-bearing description string, the open-spike pairs, the
bonded-spike pairs and a total intensity equal to the sum over both
lists; otherwise the four derived fields are `"N/A"` sentinels, one per
sampled slot.  `Generation` is always the counter value read that
visit. -/
theorem C2_return_observer (sample : List Value) (d : Dict) (g : Int) :
    ((sample.all Value.isRBN) = true →
      Dict.get (ReturnObserver.process sample d g) "Prods" =
        some (.list (sample.map (fun v => .s (partInfo v.rbnData)))) ∧
      Dict.get (ReturnObserver.process sample d g) "Open_Spikes" =
        some (.list (sample.map (fun v => .list ((openPairs v.rbnData).map pairVal)))) ∧
      Dict.get (ReturnObserver.process sample d g) "Bonded_Spikes" =
        some (.list (sample.map (fun v => .list ((bondPairs v.rbnData).map pairVal)))) ∧
      Dict.get (ReturnObserver.process sample d g) "Intensity" =
        some (.list (sample.map (fun v => .i (totalIntensity v.rbnData)))) ∧
      ∀ v ∈ sample, totalIntensity v.rbnData =
        (((openPairs v.rbnData) ++ (bondPairs v.rbnData)).map Prod.snd).sum) ∧
    ((sample.all Value.isRBN) = false →
      Dict.get (ReturnObserver.process sample d g) "Prods" =
        some (.list (List.replicate sample.length (.s "N/A"))) ∧
      Dict.get (ReturnObserver.process sample d g) "Open_Spikes" =
        some (.list (List.replicate sample.length (.s "N/A"))) ∧
      Dict.get (ReturnObserver.process sample d g) "Bonded_Spikes" =
        some (.list (List.replicate sample.length (.s "N/A"))) ∧
      Dict.get (ReturnObserver.process sample d g) "Intensity" =
        some (.list (List.replicate sample.length (.s "N/A")))) ∧
    Dict.get (ReturnObserver.process sample d g) "Generation" = some (.i g) := by
  refine ⟨?_, ?_, ?_⟩
  · intro h
    unfold ReturnObserver.process
    simp only [h, if_true]
    refine ⟨?_, ?_, ?_, ?_, ?_⟩
    · rw [Dict.get_set_ne _ _ _ _ (by decide), Dict.get_set_ne _ _ _ _ (by decide),
          Dict.get_set_ne _ _ _ _ (by decide), Dict.get_set_ne _ _ _ _ (by decide),
          Dict.get_set_same]
      simp [Function.comp]
    · rw [Dict.get_set_ne _ _ _ _ (by decide), Dict.get_set_ne _ _ _ _ (by decide),
          Dict.get_set_ne _ _ _ _ (by decide), Dict.get_set_same]
      simp [Function.comp]
    · rw [Dict.get_set_ne _ _ _ _ (by decide), Dict.get_set_ne _ _ _ _ (by decide),
          Dict.get_set_same]
      simp [Function.comp]
    · rw [Dict.get_set_ne _ _ _ _ (by decide), Dict.get_set_same]
      simp [Function.comp]
    · intro v _
      rfl
  · intro h
    unfold ReturnObserver.process
    simp only [h, if_false, Bool.false_eq_true]
    refine ⟨?_, ?_, ?_, ?_⟩
    · rw [Dict.get_set_ne _ _ _ _ (by decide), Dict.get_set_ne _ _ _ _ (by decide),
          Dict.get_set_ne _ _ _ _ (by decide), Dict.get_set_ne _ _ _ _ (by decide),
          Dict.get_set_same]
    · rw [Dict.get_set_ne _ _ _ _ (by decide), Dict.get_set_ne _ _ _ _ (by decide),
          Dict.get_set_ne _ _ _ _ (by decide), Dict.get_set_same]
    · rw [Dict.get_set_ne _ _ _ _ (by decide), Dict.get_set_ne _ _ _ _ (by decide),
          Dict.get_set_same]
    · rw [Dict.get_set_ne _ _ _ _ (by decide), Dict.get_set_same]
  · unfold ReturnObserver.process
    split <;> rw [Dict.get_set_same]

/-- Witness for C2 at a concrete two-RBN-particle sample: spike
intensities 2+5+4 = 11 and 3+6 = 9, generation counter 7. -/
theorem C2_witness :
    Dict.get (ReturnObserver.process sample₀ [] 7) "Intensity" =
      some (.list [.i 11, .i 9]) ∧
    Dict.get (ReturnObserver.process sample₀ [] 7) "Generation" = some (.i 7) :=
  ⟨((C2_return_observer sample₀ [] 7).1 rfl).2.2.2.1, (C2_return_observer sample₀ [] 7).2.2⟩

/-- C10: on an empty sample the universal capability check holds
vacuously, so `ReturnObserver.process` takes the bond/spike branch and
the row's four derived fields are empty lists, with `Generation` still
the current counter value. -/
theorem C10_empty_sample (d : Dict) (g : Int) :
    (([] : List Value).all Value.isRBN) = true ∧
    ReturnObserver.process [] d g =
      Dict.set (Dict.set (Dict.set (Dict.set (Dict.set d "Prods" (.list []))
        "Open_Spikes" (.list [])) "Bonded_Spikes" (.list [])) "Intensity" (.list []))
        "Generation" (.i g) :=
  ⟨rfl, rfl⟩

/-- C3: every successfully assembled experiment carries a reaction
ledger whose columns are exactly the nine-column schema in order, and
every operation the program performs on a ledger either leaves its rows
unchanged or appends one row at the end, never mutating or removing an
existing row (and never touching the columns). -/
theorem C3_ledger_schema (bg : BondGraph) (ss r g ts : Nat) (t : WellMixedTankState)
    (h : WellMixedTank.init bg ss r g ts = .ok t) :
    t.reactions.columns = ledgerColumns ∧
    ∀ (df : DataFrameEnvironment) (op : LedgerOp),
      (df.apply op).columns = df.columns ∧
      ((df.apply op).rows = df.rows ∨ ∃ row, (df.apply op).rows = df.rows ++ [row]) := by
  constructor
  · unfold WellMixedTank.init at h
    split_ifs at h with hc
    cases h
    rfl
  · intro df op
    cases op with
    | addRow row => exact ⟨rfl, Or.inr ⟨row, rfl⟩⟩
    | readAll => exact ⟨rfl, Or.inl rfl⟩

/-- Witness for C3 at a concrete well-shaped bond graph and
configuration. -/
theorem C3_witness :
    t₀.reactions.columns = ledgerColumns ∧
    ∀ (df : DataFrameEnvironment) (op : LedgerOp),
      (df.apply op).columns = df.columns ∧
      ((df.apply op).rows = df.rows ∨ ∃ row, (df.apply op).rows = df.rows ++ [row]) :=
  C3_ledger_schema bg₀ 2 1 1 5 t₀ rfl

/-- C5: assembly raises the graph-shape error exactly when the bond
subgraph does not expose exactly one control-in, one control-out and one
link attachment point; the check happens in `__init__`, before any node
exists, and a well-shaped subgraph assembles without error. -/
theorem C5_graph_shape (bg : BondGraph) (ss r g ts : Nat) :
    (WellMixedTank.init bg ss r g ts = .error .GraphShapeError ↔
      ¬(bg.count_control_in = 1 ∧ bg.count_control_out = 1 ∧ bg.count_links = 1)) ∧
    ((bg.count_control_in = 1 ∧ bg.count_control_out = 1 ∧ bg.count_links = 1) →
      ∃ t, WellMixedTank.init bg ss r g ts = .ok t) := by
  unfold WellMixedTank.init
  split_ifs with hc
  · exact ⟨⟨fun h => h.elim, fun hn => absurd hc hn⟩, fun _ => ⟨_, rfl⟩⟩
  · exact ⟨⟨fun _ => hc, fun _ => rfl⟩, fun h => absurd h hc⟩

/-- Witness for C5: the well-shaped bond graph `bg₀` assembles. -/
theorem C5_witness : ∃ t, WellMixedTank.init bg₀ 2 1 1 5 = .ok t :=
  (C5_graph_shape bg₀ 2 1 1 5).2 ⟨rfl, rfl, rfl⟩

/-- C6 counterexample: with the unknown string mode `"xml"` the loader's
`read` and `pull` phases complete without raising any error (so in
particular no `ConfigurationError`), and in csv mode with a missing
source the failure is the `TypeError` from `open(None)`, not a
`ConfigurationError`. -/
theorem C6_counterexample :
    LoadSampler.read (.strMode "xml") none csvRow₀ = .ok none ∧
    LoadSampler.pull gen₀ (.strMode "xml") 5 = none ∧
    LoadSampler.read (.strMode "csv") none csvRow₀ = .error .typeError ∧
    LoadSampler.read (.strMode "csv") none csvRow₀ ≠ .error .configurationError := by
  refine ⟨rfl, rfl, rfl, ?_⟩
  intro h
  injection h with h'
  exact LoadError.noConfusion h'

/-- C6 amended: a string mode outside the named modes is silently
ignored — `read` and `pull` raise nothing and leave the sample unset —
while csv mode with a missing source fails with a `TypeError`, not a
`ConfigurationError`. -/
theorem C6_amended (s : String) (lf : Option String) (row : String → List Value)
    (g : GenOracles) (n : Nat)
    (h1 : s ≠ "csv") (h2 : s ≠ "scc") (h3 : s ≠ "int") (h4 : s ≠ "RBN") :
    LoadSampler.read (.strMode s) lf row = .ok none ∧
    LoadSampler.pull g (.strMode s) n = none ∧
    LoadSampler.read (.strMode "csv") none row = .error .typeError := by
  refine ⟨?_, ?_, rfl⟩ <;> simp [LoadSampler.read, LoadSampler.pull, h1, h2, h3, h4]

/-- Witness for the amended C6 at the concrete unknown mode `"xml"`. -/
theorem C6_amended_witness :
    LoadSampler.read (.strMode "xml") none csvRow₀ = .ok none ∧
    LoadSampler.pull gen₀ (.strMode "xml") 5 = none ∧
    LoadSampler.read (.strMode "csv") none csvRow₀ = .error .typeError :=
  C6_amended "xml" none csvRow₀ gen₀ 5 (by decide) (by decide) (by decide) (by decide)

/-- C9, the export evaluated on concrete file systems: with no prior
export the file goes to the hardcoded `Outputs/output.csv` — the caller
has no path parameter to choose — and when that default exists the
export goes to the first numerically suffixed free path
`Outputs/output_1.csv`, never overwriting; the serialised table's header
is exactly the ledger's column list with one data row per recorded
reaction. -/
theorem C9_export_path (df : DataFrameEnvironment) :
    results_to_csv (fun _ => false) 1 = some "Outputs/output.csv" ∧
    results_to_csv (fun p => p == "Outputs/output.csv") 2 = some "Outputs/output_1.csv" ∧
    (DataFrameEnvironment.to_csv df).1 = df.columns ∧
    (DataFrameEnvironment.to_csv df).2.length = df.rows.length := by
  refine ⟨by decide, by decide, rfl, by simp [DataFrameEnvironment.to_csv]⟩

theorem step_not_sload (cfg : Config) (f : Nat → Nat) (s : SimState) :
    (step cfg f s).node ≠ .sload := by
  obtain ⟨nd, vT, vG, tk, tw, sc⟩ := s
  cases nd <;> simp only [step] <;> (try split_ifs) <;> simp

theorem step_to_otime (cfg : Config) (f : Nat → Nat) (s : SimState)
    (h : (step cfg f s).node = .otime) : s.node = .sload ∨ s.node = .olog := by
  obtain ⟨nd, vT, vG, tk, tw, sc⟩ := s
  cases nd <;> simp only [step] at h <;>
    first
      | exact Or.inl rfl
      | exact Or.inr rfl
      | simp at h
      | (split at h <;> (try split at h) <;> simp at h)

theorem step_to_oreset (cfg : Config) (f : Nat → Nat) (s : SimState)
    (h : (step cfg f s).node = .oreset) : s.node = .otime := by
  obtain ⟨nd, vT, vG, tk, tw, sc⟩ := s
  cases nd <;> simp only [step] at h <;>
    first
      | rfl
      | simp at h
      | (split at h <;> (try split at h) <;> simp at h)

theorem step_to_olog (cfg : Config) (f : Nat → Nat) (s : SimState)
    (h : (step cfg f s).node = .olog) : s.node = .sgeneration := by
  obtain ⟨nd, vT, vG, tk, tw, sc⟩ := s
  cases nd <;> simp only [step] at h <;>
    first
      | rfl
      | simp at h
      | (split at h <;> (try split at h) <;> simp at h)

theorem step_to_sgen (cfg : Config) (f : Nat → Nat) (s : SimState)
    (h : (step cfg f s).node = .sgeneration) : s.node = .dgen ∧ decideOf cfg s = 1 := by
  obtain ⟨nd, vT, vG, tk, tw, sc⟩ := s
  cases nd <;> simp only [step] at h <;>
    first
      | simp at h
      | (split at h <;> (try split at h) <;> simp_all)

theorem step_at_dgen_advance (cfg : Config) (f : Nat → Nat) (s : SimState)
    (h : s.node = .dgen) (hd : decideOf cfg s = 1) :
    (step cfg f s).node = .sgeneration := by
  obtain ⟨nd, vT, vG, tk, tw, sc⟩ := s
  subst h
  simp [step, hd]

theorem step_at_sgen (cfg : Config) (f : Nat → Nat) (s : SimState)
    (h : s.node = .sgeneration) : (step cfg f s).node = .olog := by
  obtain ⟨nd, vT, vG, tk, tw, sc⟩ := s
  subst h
  rfl

theorem step_at_olog (cfg : Config) (f : Nat → Nat) (s : SimState)
    (h : s.node = .olog) : (step cfg f s).node = .otime := by
  obtain ⟨nd, vT, vG, tk, tw, sc⟩ := s
  subst h
  rfl

theorem step_at_otime (cfg : Config) (f : Nat → Nat) (s : SimState)
    (h : s.node = .otime) : (step cfg f s).node = .oreset := by
  obtain ⟨nd, vT, vG, tk, tw, sc⟩ := s
  subst h
  rfl

theorem step_vGen_mono (cfg : Config) (f : Nat → Nat) (s : SimState)
    (h : s.node ≠ .oreset) : s.vGen ≤ (step cfg f s).vGen := by
  obtain ⟨nd, vT, vG, tk, tw, sc⟩ := s
  cases nd <;> simp only [step] <;> (try split_ifs) <;> simp_all

theorem step_vGen_reset (cfg : Config) (f : Nat → Nat) (s : SimState)
    (h : s.node = .oreset) : (step cfg f s).vGen = 0 := by
  obtain ⟨nd, vT, vG, tk, tw, sc⟩ := s
  subst h
  rfl

/-- C7: along every run of the assembled graph, the per-generation
counter never decreases except at the reset node, where it becomes 0;
every visit of the reset node is either the one fixed visit before the
first sample (step 2 of the run, followed by the first sample at step 3)
or happens exactly four steps after a generation-advance decision (and
each advance decision leads through `sgeneration`, the logger and the
clock tick straight to one reset) — so the counter is reset exactly once
per generation boundary and once before the first sample, and is
non-decreasing in between. -/
theorem C7_reset_per_generation (cfg : Config) (oracle : Nat → Nat → Nat) (n : Nat) :
    ((exec cfg oracle n).node ≠ .oreset →
       (exec cfg oracle n).vGen ≤ (exec cfg oracle (n + 1)).vGen) ∧
    ((exec cfg oracle n).node = .oreset → (exec cfg oracle (n + 1)).vGen = 0) ∧
    ((exec cfg oracle n).node = .oreset →
       n = 2 ∨ ∃ m, n = m + 4 ∧ (exec cfg oracle m).node = .dgen ∧
         decideOf cfg (exec cfg oracle m) = 1) ∧
    ((exec cfg oracle n).node = .dgen → decideOf cfg (exec cfg oracle n) = 1 →
       (exec cfg oracle (n + 1)).node = .sgeneration ∧
       (exec cfg oracle (n + 2)).node = .olog ∧
       (exec cfg oracle (n + 3)).node = .otime ∧
       (exec cfg oracle (n + 4)).node = .oreset) ∧
    ((exec cfg oracle 0).node ≠ .oreset ∧ (exec cfg oracle 1).node ≠ .oreset ∧
     (exec cfg oracle 2).node = .oreset ∧ (exec cfg oracle 3).node = .ssample) := by
  refine ⟨?_, ?_, ?_, ?_, ?_, ?_, rfl, rfl⟩
  · exact fun h => step_vGen_mono cfg (oracle n) (exec cfg oracle n) h
  · exact fun h => step_vGen_reset cfg (oracle n) (exec cfg oracle n) h
  · intro h
    cases n with
    | zero => simp [exec, initState] at h
    | succ n1 =>
      have h1 : (exec cfg oracle n1).node = .otime :=
        step_to_oreset cfg (oracle n1) (exec cfg oracle n1) h
      cases n1 with
      | zero => simp [exec, initState] at h1
      | succ n2 =>
        rcases step_to_otime cfg (oracle n2) (exec cfg oracle n2) h1 with h2 | h2
        · cases n2 with
          | zero => exact Or.inl rfl
          | succ n3 => exact absurd h2 (step_not_sload cfg (oracle n3) (exec cfg oracle n3))
        · cases n2 with
          | zero => simp [exec, initState] at h2
          | succ n3 =>
            have h3 : (exec cfg oracle n3).node = .sgeneration :=
              step_to_olog cfg (oracle n3) (exec cfg oracle n3) h2
            cases n3 with
            | zero => simp [exec, initState] at h3
            | succ n4 =>
              obtain ⟨h4, h5⟩ := step_to_sgen cfg (oracle n4) (exec cfg oracle n4) h3
              exact Or.inr ⟨n4, by omega, h4, h5⟩
  · intro h hd
    have e1 : (exec cfg oracle (n + 1)).node = .sgeneration :=
      step_at_dgen_advance cfg (oracle n) (exec cfg oracle n) h hd
    have e2 : (exec cfg oracle (n + 2)).node = .olog :=
      step_at_sgen cfg (oracle (n + 1)) (exec cfg oracle (n + 1)) e1
    have e3 : (exec cfg oracle (n + 3)).node = .otime :=
      step_at_olog cfg (oracle (n + 2)) (exec cfg oracle (n + 2)) e2
    have e4 : (exec cfg oracle (n + 4)).node = .oreset :=
      step_at_otime cfg (oracle (n + 3)) (exec cfg oracle (n + 3)) e3
    exact ⟨e1, e2, e3, e4⟩
  · simp [exec, initState]
  · simp [exec, step, initState]

/-- Witness for C7 at the concrete configuration `cfg₀`: the run's first
reset visit (step 2) zeroes the per-generation counter at step 3. -/
theorem C7_witness : (exec cfg₀ oracle₀ 3).vGen = 0 :=
  (C7_reset_per_generation cfg₀ oracle₀ 2).2.1 (by decide)

/-- C8 counterexample: after eight steps of the run with `cfg₀` (tank
size 5, conserving reaction), control sits at the generation-counter
tick — outside the reaction subgraph, whose in-flight size is 0 — yet
pool size plus sample-buffer size is 3, not the 5 particles the loader
created: the two returned products are held in the `TNew` return buffer,
which the claimed sum omits. -/
theorem C8_counterexample :
    (exec cfg₀ oracle₀ 8).node = .ogen ∧
    (exec cfg₀ oracle₀ 8).node ≠ .bond ∧
    (exec cfg₀ oracle₀ 8).tank = 3 ∧
    (exec cfg₀ oracle₀ 8).scomp = 0 ∧
    (exec cfg₀ oracle₀ 8).tnew = 2 ∧
    cfg₀.tank_size = 5 := by decide

/-- C8 amended: when the opaque reaction subgraph conserves particles,
then at every step after loading, pool size + return-buffer (`TNew`)
size + sample-buffer size equals the number of particles the loader
created — the return buffer must be counted, since products wait there
until the generation boundary. -/
theorem C8_population (cfg : Config) (oracle : Nat → Nat → Nat)
    (hc : ∀ k s, oracle k s = s) (n : Nat) :
    (exec cfg oracle (n + 1)).tank + (exec cfg oracle (n + 1)).tnew +
      (exec cfg oracle (n + 1)).scomp = cfg.tank_size := by
  induction n with
  | zero => simp [exec, step, initState]
  | succ k ih =>
    have hns : (exec cfg oracle (k + 1)).node ≠ .sload :=
      step_not_sload cfg (oracle k) (exec cfg oracle k)
    show (step cfg (oracle (k + 1)) (exec cfg oracle (k + 1))).tank +
      (step cfg (oracle (k + 1)) (exec cfg oracle (k + 1))).tnew +
      (step cfg (oracle (k + 1)) (exec cfg oracle (k + 1))).scomp = cfg.tank_size
    generalize hE : exec cfg oracle (k + 1) = s at ih hns
    obtain ⟨nd, vT, vG, tk, tw, sc⟩ := s
    cases nd <;> simp_all [step, hc] <;> (try split_ifs) <;> (try simp_all) <;> omega

/-- Witness for the amended C8 at the concrete conserving run: after
eight steps the three containers still sum to the 5 loaded particles. -/
theorem C8_population_witness :
    (exec cfg₀ oracle₀ 8).tank + (exec cfg₀ oracle₀ 8).tnew +
      (exec cfg₀ oracle₀ 8).scomp = cfg₀.tank_size :=
  C8_population cfg₀ oracle₀ (fun _ _ => rfl) 7
